import Mathlib

/-!
# zk-payroll-sdk: shallow embedding and verification

This file embeds the core of the `zk-payroll-sdk` TypeScript repository
(`src/crypto/commitment.ts`, `src/crypto/groth16.ts`, `src/client.ts`,
`src/types/index.ts`) in Lean 4 and settles the specification claims
against it.

Modelling conventions:
* JavaScript `Uint8Array` buffers are `List Nat` (each entry a byte value).
* JavaScript `bigint` is `Int` where negative values can occur (the
  `& 0xff` / `>> 8` operations on a negative `bigint` follow two's
  complement, i.e. Euclidean mod / floor division by powers of two,
  which is Lean's `%` / `/` on `Int`), and `Nat` where the source value
  is always non-negative.
* The external Poseidon hash (`circomlibjs`) and the external Groth16
  prover/verifier (`snarkjs`) are opaque collaborators: they are passed
  as explicit function parameters, so every theorem quantifies over (or
  instantiates) them.
* `async` functions that can `throw` are embedded as `Except`-valued
  functions; a thrown JS runtime error (e.g. `BigInt(undefined)`) is an
  `Except.error`.
* External ledger calls (`buildTransaction` / `submitTransaction` /
  `getEmployee`) are plumbing around the Stellar RPC; their outcomes are
  passed in as `Except`-valued parameters.
-/

/-! ## Byte codecs (`src/crypto/commitment.ts`, `src/crypto/groth16.ts`) -/

/-- Big-endian base-256 digits of `v`, `n` bytes, most significant first.
This is the loop `for (i = 31; i >= 0; i--) { bytes[i] = temp & 0xff; temp >>= 8 }`
of the source, generalised over the byte count: the last digit is
`v % 256`, the digits before it encode `v / 256`. -/
def toDigits : Nat → Nat → List Nat
  | 0, _ => []
  | n + 1, v => toDigits n (v / 256) ++ [v % 256]

/-- `bigIntToBytes32` from `src/crypto/groth16.ts` (lines 312-322):
fixed 32-byte big-endian encoding of a non-negative bigint. -/
def bigIntToBytes32 (value : Nat) : List Nat :=
  toDigits 32 value

/-- Signed variant of the digit loop, for `bigIntToBytes` of
`src/crypto/commitment.ts` whose `bigint` argument may be negative:
JS `temp & 0xffn` is `temp % 256` (Euclidean, always in `[0, 256)`) and
`temp >> 8n` is floor division, which on `Int` with a positive divisor
is `/`. -/
def toDigitsI : Nat → Int → List Nat
  | 0, _ => []
  | n + 1, v => toDigitsI n (v / 256) ++ [(v % 256).toNat]

/-- `bigIntToBytes` from `src/crypto/commitment.ts` (lines 100-110):
writes `value & 0xff` into byte 31, shifts right by 8, and so on down to
byte 0.  No range check of any kind: the value is silently reduced
modulo `2^256` (negative values via two's complement). -/
def bigIntToBytes (value : Int) : List Nat :=
  toDigitsI 32 value

/-- `bytesToBigInt` from `src/crypto/commitment.ts` (lines 92-98):
`result = (result << 8) | byte` over the whole buffer, whatever its
length.  Total: no length check. -/
def bytesToBigInt (bytes : List Nat) : Nat :=
  bytes.foldl (fun result b => result * 256 + b) 0

/-- `bytesToFieldElement` from `src/crypto/groth16.ts` (lines 304-310):
same fold as `bytesToBigInt` (the decimal-string conversion at the end
is modelled by the numeric value itself). -/
def bytesToFieldElement (bytes : List Nat) : Nat :=
  bytes.foldl (fun result b => result * 256 + b) 0

/-- `bytes32ToBigInt` from `src/crypto/groth16.ts` (lines 324-330):
reads exactly the first 32 entries of the buffer.  In JS, an input
shorter than 32 bytes makes `BigInt(bytes[i])` throw a `TypeError`
(`bytes[i]` is `undefined`), which we model as `Except.error`. -/
def bytes32ToBigIntE (bytes : List Nat) : Except String Nat :=
  if bytes.length < 32 then
    .error "TypeError: Cannot convert undefined to a BigInt"
  else
    .ok ((bytes.take 32).foldl (fun result b => result * 256 + b) 0)

/-- `areEqual` from `src/crypto/commitment.ts` (lines 112-118): length
check, then byte-wise comparison with early exit — structurally, list
equality. -/
def areEqual : List Nat → List Nat → Bool
  | [], [] => true
  | a :: as, b :: bs => a == b && areEqual as bs
  | _, _ => false

/-! ## Commitments and nullifiers (`src/crypto/commitment.ts`) -/

/-- `generateCommitment` from `src/crypto/commitment.ts` (lines 37-54):
`commitment = bigIntToBytes(Poseidon(salary, blindingFactor))`.  The
external Poseidon hash is the parameter `poseidon`. -/
def generateCommitment (poseidon : List Nat → Nat) (salary : Nat)
    (blindingFactor : List Nat) : List Nat :=
  bigIntToBytes (poseidon [salary, bytesToBigInt blindingFactor] : Nat)

/-- `verifyCommitment` from `src/crypto/commitment.ts` (lines 59-66):
recompute the commitment and compare byte-for-byte. -/
def verifyCommitment (poseidon : List Nat → Nat) (commitment : List Nat)
    (salary : Nat) (blindingFactor : List Nat) : Bool :=
  areEqual commitment (generateCommitment poseidon salary blindingFactor)

/-- `generateNullifier` from `src/crypto/commitment.ts` (lines 72-86):
`nullifier = bigIntToBytes(Poseidon(commitment, period, secret))`. -/
def generateNullifier (poseidon : List Nat → Nat) (commitment : List Nat)
    (period : Nat) (secret : List Nat) : List Nat :=
  bigIntToBytes (poseidon
    [bytesToBigInt commitment, period, bytesToBigInt secret] : Nat)

/-! ## Point codecs (`src/crypto/groth16.ts`) -/

/-- `encodeG1Point` from `src/crypto/groth16.ts` (lines 245-254): a G1
point, given by snarkjs as a triple of decimal coordinate strings
(affine points carry `z = '1'`), is encoded as `x || y`, each 32-byte
big-endian.  Coordinate strings are modelled by their numeric values. -/
def encodeG1Point (point : Nat × Nat × Nat) : List Nat :=
  bigIntToBytes32 point.1 ++ bigIntToBytes32 point.2.1

/-- `encodeG2Point` from `src/crypto/groth16.ts` (lines 259-272):
`x0 || x1 || y0 || y1`, each 32-byte big-endian. -/
def encodeG2Point (point : (Nat × Nat) × (Nat × Nat) × (Nat × Nat)) : List Nat :=
  bigIntToBytes32 point.1.1 ++ bigIntToBytes32 point.1.2 ++
    bigIntToBytes32 point.2.1.1 ++ bigIntToBytes32 point.2.1.2

/-- `decodeG1Point` from `src/crypto/groth16.ts` (lines 277-282):
`slice(0,32)` and `slice(32,64)` are read back as scalars and the point
is returned with `z = '1'`.  A buffer too short for the 32-byte reads
makes `bytes32ToBigInt` throw (modelled by `Except.error`); the first
failing read wins, as in JS. -/
def decodeG1PointE (bytes : List Nat) : Except String (Nat × Nat × Nat) :=
  match bytes32ToBigIntE (bytes.take 32),
      bytes32ToBigIntE ((bytes.drop 32).take 32) with
  | .ok x, .ok y => .ok (x, y, 1)
  | .error e, _ => .error e
  | _, .error e => .error e

/-- `decodeG2Point` from `src/crypto/groth16.ts` (lines 287-298): four
32-byte slices, returned with `z = ('1', '0')`. -/
def decodeG2PointE (bytes : List Nat) :
    Except String ((Nat × Nat) × (Nat × Nat) × (Nat × Nat)) :=
  match bytes32ToBigIntE (bytes.take 32),
      bytes32ToBigIntE ((bytes.drop 32).take 32),
      bytes32ToBigIntE ((bytes.drop 64).take 32),
      bytes32ToBigIntE ((bytes.drop 96).take 32) with
  | .ok x0, .ok x1, .ok y0, .ok y1 => .ok ((x0, x1), (y0, y1), (1, 0))
  | .error e, _, _, _ => .error e
  | _, .error e, _, _ => .error e
  | _, _, .error e, _ => .error e
  | _, _, _, .error e => .error e

/-! ## Proof generation and local verification (`src/crypto/groth16.ts`) -/

/-- The `Groth16Proof` interface from `src/types/index.ts` (lines
124-129): 64-byte `a`, 128-byte `b`, 64-byte `c`, 32-byte nullifier. -/
structure Groth16ProofL where
  a : List Nat
  b : List Nat
  c : List Nat
  nullifier : List Nat
deriving DecidableEq, Repr

/-- The proof object returned by `snarkjs.groth16.fullProve`: `pi_a`,
`pi_c` are G1 coordinate triples, `pi_b` a G2 triple of pairs. -/
structure SnarkjsProof where
  pi_a : Nat × Nat × Nat
  pi_b : (Nat × Nat) × (Nat × Nat) × (Nat × Nat)
  pi_c : Nat × Nat × Nat
deriving DecidableEq, Repr

/-- The circuit input assignment built by `generatePaymentProof`
(`src/crypto/groth16.ts` lines 148-157). -/
structure CircuitInputs where
  salary : Nat
  blindingFactor : Nat
  commitment : Nat
  nullifier : Nat
  recipientHash : Nat
deriving DecidableEq, Repr

/-- `GenerateProofParams` from `src/types/index.ts` (lines 131-136).
Note there is no `period` field: the caller cannot pass one. -/
structure GenerateProofParamsL where
  salary : Nat
  blindingFactor : List Nat
  recipient : String
  commitment : List Nat
deriving Repr

/-- `hashAddress` from `src/crypto/groth16.ts` (lines 332-339):
`hash = (hash * 31 + charCode) % 2^254` over the characters of the
address. -/
def hashAddress (address : String) : Nat :=
  address.data.foldl (fun hash ch => (hash * 31 + ch.toNat) % 2 ^ 254) 0

/-- `generatePaymentProof` from `src/crypto/groth16.ts` (lines 135-177).
`now` is the value of `Date.now()` at the call — the source passes it as
the `period` argument of `generateNullifier`.  `fullProve` is the
external `snarkjs.groth16.fullProve` (plus circuit artifacts); when it
throws, the caught error is rethrown with the
`Proof generation failed: ` prefix. -/
def generatePaymentProof (poseidon : List Nat → Nat)
    (fullProve : CircuitInputs → Except String SnarkjsProof)
    (now : Nat) (params : GenerateProofParamsL) : Except String Groth16ProofL :=
  let nullifier :=
    generateNullifier poseidon params.commitment now params.blindingFactor
  let circuitInputs : CircuitInputs :=
    { salary := params.salary
      blindingFactor := bytesToFieldElement params.blindingFactor
      commitment := bytesToFieldElement params.commitment
      nullifier := bytesToFieldElement nullifier
      recipientHash := hashAddress params.recipient }
  match fullProve circuitInputs with
  | .ok pr =>
      .ok { a := encodeG1Point pr.pi_a
            b := encodeG2Point pr.pi_b
            c := encodeG1Point pr.pi_c
            nullifier := nullifier }
  | .error e => .error ("Proof generation failed: " ++ e)

/-- The public inputs of `verifyProofLocally`
(`src/crypto/groth16.ts` lines 184-188). -/
structure PublicInputsL where
  commitment : List Nat
  nullifier : List Nat
  recipientHash : Nat
deriving DecidableEq, Repr

/-- The `try` block of `verifyProofLocally` (`src/crypto/groth16.ts`
lines 192-209): decode the three proof points (each decode can throw on
a short buffer) and call the external `snarkjs.groth16.verify`
(parameter `grothVerify`, which can itself throw or reject). -/
def tryVerify (grothVerify : List Nat → SnarkjsProof → Except String Bool)
    (proof : Groth16ProofL) (publicInputs : PublicInputsL) :
    Except String Bool :=
  match decodeG1PointE proof.a, decodeG2PointE proof.b,
      decodeG1PointE proof.c with
  | .ok pa, .ok pb, .ok pc =>
      grothVerify
        [bytesToFieldElement publicInputs.commitment,
         bytesToFieldElement publicInputs.nullifier,
         publicInputs.recipientHash]
        ⟨pa, pb, pc⟩
  | .error e, _, _ => .error e
  | _, .error e, _ => .error e
  | _, _, .error e => .error e

/-- `verifyProofLocally` from `src/crypto/groth16.ts` (lines 182-214):
the whole body is wrapped in `try { ... } catch { console.error(...);
return false }`, so every internal failure becomes the value `false`. -/
def verifyProofLocally (grothVerify : List Nat → SnarkjsProof → Except String Bool)
    (proof : Groth16ProofL) (publicInputs : PublicInputsL) : Bool :=
  match tryVerify grothVerify proof publicInputs with
  | .ok b => b
  | .error _ => false

/-! ## The `ZKPayroll` client (`src/client.ts`) -/

/-- The in-memory `blindingFactors : Map<string, Uint8Array>` of the
`ZKPayroll` class (`src/client.ts` line 342), keyed by
`companyId:employeeAddress`. -/
def Store : Type := String → Option (List Nat)

/-- `Map.set`. -/
def mapSet (m : Store) (k : String) (v : List Nat) : Store :=
  fun k' => if k' = k then some v else m k'

/-- `Map.delete`. -/
def mapDelete (m : Store) (k : String) : Store :=
  fun k' => if k' = k then none else m k'

/-- A fresh, empty `Map`. -/
def emptyStore : Store := fun _ => none

/-- The template literal `` `${companyId}:${employeeAddress}` ``. -/
def mkKey (companyId employeeAddress : String) : String :=
  companyId ++ ":" ++ employeeAddress

/-- JS error values thrown by the SDK: `new Error(msg)` (`jsError`) and
`new ZKPayrollError(code, msg)` from `src/types/index.ts`. -/
inductive SDKError where
  | jsError (msg : String)
  | zkPayrollError (code : String) (msg : String)
deriving DecidableEq, Repr

/-- `String(error)` as used in `processPayroll`'s catch:
`Error` stringifies as `Error: msg`, `ZKPayrollError` (whose `name` is
set to `'ZKPayrollError'`) as `ZKPayrollError: msg`. -/
def errString : SDKError → String
  | .jsError msg => "Error: " ++ msg
  | .zkPayrollError _ msg => "ZKPayrollError: " ++ msg

/-- The error thrown by `processPayment` when no blinding factor is
stored (`src/client.ts` line 500): a plain
`new Error('Blinding factor not found. Was employee added via this SDK?')`. -/
def secretNotFoundError : SDKError :=
  .jsError "Blinding factor not found. Was employee added via this SDK?"

/-- `Employee` from `src/types/index.ts` (lines 62-68). -/
structure EmployeeL where
  address : String
  companyId : String
  salaryCommitment : List Nat
  isActive : Bool
  lastPaymentTimestamp : Nat
deriving DecidableEq, Repr

/-- `PaymentResult` from `src/types/index.ts` (lines 104-110). -/
structure PaymentResultL where
  success : Bool
  transactionHash : Option String
  error : Option String
  period : Nat
  employeeAddress : String
deriving DecidableEq, Repr

/-- Which externally visible steps a `processPayment` call performed:
whether ZK proof generation was invoked, and whether the payment
transaction was submitted. -/
structure PayEffects where
  proofAttempted : Bool
  submitted : Bool
deriving DecidableEq, Repr

/-- The external collaborators of one `processPayment` call: the
Poseidon hash, the snarkjs prover, the `Date.now()` value, the
`getEmployee` ledger lookup and the outcome of submitting the payment
transaction. -/
structure PayExt where
  poseidon : List Nat → Nat
  fullProve : CircuitInputs → Except String SnarkjsProof
  now : Nat
  getEmployee : String → Except SDKError EmployeeL
  submit : Except SDKError Unit

/-- `ProcessPaymentParams` from `src/types/index.ts` (lines 91-96). -/
structure ProcessPaymentParamsL where
  companyId : String
  employeeAddress : String
  amount : Nat
  period : Nat
deriving Repr

/-- `processPayment` from `src/client.ts` (lines 495-539): look up the
blinding factor (a missing entry throws before anything else happens),
fetch the employee, generate the payment proof, submit the payment, and
return a success record (`transactionHash` is set to `''`).  The
returned `PayEffects` records which external steps ran. -/
def processPayment (store : Store) (ext : PayExt)
    (params : ProcessPaymentParamsL) :
    Except SDKError PaymentResultL × PayEffects :=
  match store (mkKey params.companyId params.employeeAddress) with
  | none => (.error secretNotFoundError, ⟨false, false⟩)
  | some blindingFactor =>
    match ext.getEmployee params.employeeAddress with
    | .error e => (.error e, ⟨false, false⟩)
    | .ok employee =>
      match generatePaymentProof ext.poseidon ext.fullProve ext.now
          ⟨params.amount, blindingFactor, params.employeeAddress,
           employee.salaryCommitment⟩ with
      | .error e => (.error (.jsError e), ⟨true, false⟩)
      | .ok _proof =>
        match ext.submit with
        | .error e => (.error e, ⟨true, false⟩)
        | .ok _ =>
          (.ok ⟨true, some "", none, params.period, params.employeeAddress⟩,
           ⟨true, true⟩)

/-- `ProcessPayrollParams` from `src/types/index.ts` (lines 98-102). -/
structure ProcessPayrollParamsL where
  companyId : String
  period : Nat
  employees : Option (List String)
deriving Repr

/-- The `for` loop of `processPayroll` (`src/client.ts` lines 547-576):
per employee, inside `try/catch`: a missing blinding factor logs a
warning and `continue`s (no result element); otherwise the salary is
fetched (`getEmployeeSalary` is a stub returning `0`) and
`processPayment` is called; a caught error is pushed as a failed
`PaymentResult` carrying `String(error)`. -/
def processPayrollGo (store : Store) (ext : String → PayExt)
    (companyId : String) (period : Nat) :
    List String → List PaymentResultL
  | [] => []
  | e :: rest =>
    match store (mkKey companyId e) with
    | none => processPayrollGo store ext companyId period rest
    | some _ =>
      match (processPayment store (ext e) ⟨companyId, e, 0, period⟩).1 with
      | .ok r => r :: processPayrollGo store ext companyId period rest
      | .error err =>
          ⟨false, none, some (errString err), period, e⟩ ::
            processPayrollGo store ext companyId period rest

/-- `processPayroll` from `src/client.ts` (lines 541-579):
`params.employees ?? await this.getActiveEmployees(...)`, where
`getActiveEmployees` is a stub returning `[]`; then the per-employee
loop. -/
def processPayroll (store : Store) (ext : String → PayExt)
    (params : ProcessPayrollParamsL) : List PaymentResultL :=
  processPayrollGo store ext params.companyId params.period
    (params.employees.getD [])

/-- The per-employee outcome of one `processPayroll` loop iteration:
`none` when the employee is skipped (no stored blinding factor), the
pushed `PaymentResult` otherwise. -/
def payrollOutcome (store : Store) (ext : String → PayExt)
    (companyId : String) (period : Nat) (e : String) :
    Option PaymentResultL :=
  match store (mkKey companyId e) with
  | none => none
  | some _ =>
    match (processPayment store (ext e) ⟨companyId, e, 0, period⟩).1 with
    | .ok r => some r
    | .error err => some ⟨false, none, some (errString err), period, e⟩

/-! ## View keys (`src/client.ts`) -/

/-- The contract-side scope value built by `mapAuditScope`:
`{ FullCompany: {} }`, `{ AggregateOnly: {} }` or
`{ TimeRange: [start, end] }`. -/
inductive ScopeValue where
  | FullCompany
  | AggregateOnly
  | TimeRange (startSec endSec : Int)
deriving DecidableEq, Repr

/-- `mapAuditScope` from `src/client.ts` (lines 691-708).  `Date`s are
modelled by their epoch milliseconds (`getTime()`);
`Math.floor(ms / 1000)` is floor division, `/` on `Int`.  Only a
missing `timeRange` object and an unknown scope string throw; `start`
and `end` are not compared. -/
def mapAuditScope (scope : String) (timeRange : Option (Int × Int)) :
    Except String ScopeValue :=
  match scope with
  | "full" => .ok .FullCompany
  | "aggregate" => .ok .AggregateOnly
  | "timeRange" =>
    match timeRange with
    | none => .error "timeRange required for timeRange scope"
    | some (s, e) => .ok (.TimeRange (s / 1000) (e / 1000))
  | other => .error ("Unknown scope: " ++ other)

/-- `ViewKey` from `src/types/index.ts` (lines 144-152). -/
structure ViewKeyL where
  id : List Nat
  companyId : String
  auditor : String
  grantedBy : String
  createdAt : Int
  expiresAt : Int
  scope : String
deriving DecidableEq, Repr

/-- The `{} as ViewKey` placeholder returned by `generateViewKey`
(`src/client.ts` line 619): an object with no fields set, modelled with
all fields at their empty/zero values. -/
def emptyViewKey : ViewKeyL :=
  ⟨[], "", "", "", 0, 0, ""⟩

/-- `GenerateViewKeyParams` from `src/types/index.ts` (lines 154-163).
`durationDays` is an `Int` so that zero and negative values can be
passed, as the claim considers. -/
structure GenerateViewKeyParamsL where
  companyId : String
  auditorAddress : String
  scope : String
  durationDays : Int
  timeRange : Option (Int × Int)
deriving Repr

/-- `generateViewKey` from `src/client.ts` (lines 600-620): map the
scope (the only step that can throw), submit the
`generate_view_key` transaction, and return the `{} as ViewKey`
placeholder.  The `Bool` records whether the transaction was submitted.
`durationDays` is passed through to the contract unvalidated. -/
def generateViewKey (p : GenerateViewKeyParamsL) :
    Except String ViewKeyL × Bool :=
  match mapAuditScope p.scope p.timeRange with
  | .error e => (.error e, false)
  | .ok _scopeValue => (.ok emptyViewKey, true)

/-! ## Employee lifecycle (`src/client.ts`) -/

/-- `updateSalary` from `src/client.ts` (lines 442-468): generate a
fresh blinding factor (`generateBlindingFactor` is a CSPRNG; the drawn
value is the parameter `freshBlinding`), compute the new commitment,
overwrite the stored blinding factor for `companyId:employeeAddress`,
then submit the `update_salary_commitment` transaction (outcome
`submitResult`).  The store write happens before the submission. -/
def updateSalary (store : Store) (poseidon : List Nat → Nat)
    (freshBlinding : List Nat) (submitResult : Except SDKError Unit)
    (companyId employeeAddress : String) (newSalary : Nat) :
    Except SDKError Unit × Store :=
  let _commitment := generateCommitment poseidon newSalary freshBlinding
  let store' := mapSet store (mkKey companyId employeeAddress) freshBlinding
  (submitResult, store')

/-- `deactivateEmployee` from `src/client.ts` (lines 470-489): submit
the `deactivate_employee` transaction; on success, delete the stored
blinding factor for `companyId:employeeAddress` (a thrown submission
error propagates before the delete). -/
def deactivateEmployee (store : Store) (submitResult : Except SDKError Unit)
    (companyId employeeAddress : String) :
    Except SDKError Unit × Store :=
  match submitResult with
  | .error e => (.error e, store)
  | .ok _ => (.ok (), mapDelete store (mkKey companyId employeeAddress))

/-! ## Concrete instances used by counterexamples and witnesses -/

/-- A concrete stand-in for the external Poseidon hash: the sum of the
inputs.  Used only to instantiate theorems at computable points. -/
def sumPoseidon : List Nat → Nat :=
  fun inputs => inputs.foldl (· + ·) 0

/-- A snarkjs prover stub that always succeeds with a fixed proof. -/
def stubProver : CircuitInputs → Except String SnarkjsProof :=
  fun _ => .ok ⟨(1, 2, 1), ((1, 0), (1, 0), (1, 0)), (3, 4, 1)⟩

/-- Concrete `generatePaymentProof` parameters: salary 0, all-zero
blinding factor and commitment. -/
def sampleProofParams : GenerateProofParamsL :=
  ⟨0, List.replicate 32 0, "G", List.replicate 32 0⟩

/-- An external Groth16 verifier that throws. -/
def boomVerifier : List Nat → SnarkjsProof → Except String Bool :=
  fun _ _ => .error "verification crashed"

/-- A well-formed all-zero proof (64/128/64/32 bytes). -/
def zeroProof : Groth16ProofL :=
  ⟨List.replicate 64 0, List.replicate 128 0, List.replicate 64 0,
   List.replicate 32 0⟩

/-- All-zero public inputs. -/
def zeroPublicInputs : PublicInputsL :=
  ⟨List.replicate 32 0, List.replicate 32 0, 0⟩

/-- Concrete external collaborators for `processPayment`. -/
def trivialExt : PayExt :=
  ⟨sumPoseidon, stubProver, 0,
   fun addr => .ok ⟨addr, "ACME", List.replicate 32 0, true, 0⟩, .ok ()⟩

/-- A store holding blinding factors for `A:E1` and `A:E2`. -/
def store2 : Store :=
  mapSet (mapSet emptyStore (mkKey "A" "E1") [1]) (mkKey "A" "E2") [2]

/-- `generateViewKey` parameters with a reversed time range
(start 5000 ms, end 3000 ms). -/
def badTimeRangeParams : GenerateViewKeyParamsL :=
  ⟨"ACME", "GAUDITOR", "timeRange", 30, some (5000, 3000)⟩

/-- `generateViewKey` parameters with scope `full`. -/
def fullScopeParams : GenerateViewKeyParamsL :=
  ⟨"ACME", "GAUDITOR", "full", 30, none⟩

/-- `generateViewKey` parameters with scope `employeeList`, which the
public `AuditScope` type offers but `mapAuditScope` does not handle. -/
def employeeListParams : GenerateViewKeyParamsL :=
  ⟨"ACME", "GAUDITOR", "employeeList", 30, none⟩

/-! ## Codec lemmas -/

theorem toDigits_length (n v : Nat) : (toDigits n v).length = n := by
  induction n generalizing v with
  | zero => rfl
  | succ n ih => simp [toDigits, ih]

theorem toDigitsI_length (n : Nat) (v : Int) : (toDigitsI n v).length = n := by
  induction n generalizing v with
  | zero => rfl
  | succ n ih => simp [toDigitsI, ih]

theorem nat_mod_pow_succ (v n : Nat) :
    v % 256 ^ (n + 1) = (v / 256 % 256 ^ n) * 256 + v % 256 := by
  have h1 := Nat.mod_mul_right_div_self v 256 (256 ^ n)
  have h2 := Nat.mod_mul_right_mod v 256 (256 ^ n)
  have h3 := Nat.div_add_mod (v % (256 * 256 ^ n)) 256
  rw [pow_succ, mul_comm (256 ^ n) 256]
  omega

theorem foldl_toDigits (n : Nat) (v acc : Nat) :
    (toDigits n v).foldl (fun r b => r * 256 + b) acc
      = acc * 256 ^ n + v % 256 ^ n := by
  induction n generalizing v acc with
  | zero => simp [toDigits, Nat.mod_one]
  | succ n ih =>
    rw [toDigits, List.foldl_append, ih]
    simp only [List.foldl_cons, List.foldl_nil]
    rw [nat_mod_pow_succ, pow_succ]
    ring

theorem bigIntToBytes32_length (v : Nat) : (bigIntToBytes32 v).length = 32 :=
  toDigits_length 32 v

theorem bytes32ToBigIntE_bigIntToBytes32 (v : Nat) (h : v < 2 ^ 256) :
    bytes32ToBigIntE (bigIntToBytes32 v) = .ok v := by
  have hl : (bigIntToBytes32 v).length = 32 := bigIntToBytes32_length v
  rw [bytes32ToBigIntE, if_neg (by omega)]
  rw [List.take_of_length_le (le_of_eq hl)]
  rw [bigIntToBytes32, foldl_toDigits]
  have h32 : (256 : Nat) ^ 32 = 2 ^ 256 := by norm_num
  rw [h32, Nat.zero_mul, Nat.zero_add, Nat.mod_eq_of_lt h]

theorem int_mod_mul_decomp (v M : Int) (hM : 0 < M) :
    v % (256 * M) = 256 * (v / 256 % M) + v % 256 := by
  have h1 : (256 : Int) * (v / 256) + v % 256 = v := Int.ediv_add_emod v 256
  have h2 : M * (v / 256 / M) + v / 256 % M = v / 256 :=
    Int.ediv_add_emod (v / 256) M
  have hr1 : 0 ≤ v % 256 := Int.emod_nonneg v (by norm_num)
  have hr2 : v % 256 < 256 := Int.emod_lt_of_pos v (by norm_num)
  have hw1 : 0 ≤ v / 256 % M := Int.emod_nonneg _ (ne_of_gt hM)
  have hw2 : v / 256 % M < M := Int.emod_lt_of_pos _ hM
  have hb : (0 : Int) < 256 * M := by positivity
  have key := (Int.ediv_emod_unique (a := v) (b := 256 * M)
    (q := v / 256 / M) (r := 256 * (v / 256 % M) + v % 256) hb).mpr
    ⟨by nlinarith, by nlinarith, by nlinarith⟩
  exact key.2

theorem toDigitsI_emod (n : Nat) (v : Int) :
    toDigitsI n (v % (256 ^ n : Int)) = toDigitsI n v := by
  induction n generalizing v with
  | zero => rfl
  | succ n ih =>
    have hM : (0 : Int) < 256 ^ n := by positivity
    have hmod : v % 256 ^ (n + 1) % 256 = v % 256 := by
      rw [show ((256 : Int) ^ (n + 1)) = 256 * 256 ^ n by ring]
      exact Int.emod_emod_of_dvd v ⟨256 ^ n, rfl⟩
    have hdiv : v % 256 ^ (n + 1) / 256 = v / 256 % 256 ^ n := by
      rw [show ((256 : Int) ^ (n + 1)) = 256 * 256 ^ n by ring,
        int_mod_mul_decomp v _ hM]
      have hr1 : 0 ≤ v % 256 := Int.emod_nonneg v (by norm_num)
      have hr2 : v % 256 < 256 := Int.emod_lt_of_pos v (by norm_num)
      omega
    rw [toDigitsI, toDigitsI, hmod, hdiv, ih]

theorem toDigitsI_ofNat (n : Nat) (v : Nat) :
    toDigitsI n (v : Int) = toDigits n v := by
  induction n generalizing v with
  | zero => rfl
  | succ n ih =>
    have h1 : ((v : Int) % 256).toNat = v % 256 := by omega
    have h2 : ((v : Int) / 256) = ((v / 256 : Nat) : Int) := by omega
    rw [toDigitsI, toDigits, h1, h2, ih]

theorem areEqual_eq_true_iff (a b : List Nat) : areEqual a b = true ↔ a = b := by
  induction a generalizing b with
  | nil => cases b <;> simp [areEqual]
  | cons x xs ih => cases b <;> simp [areEqual, ih]

theorem take32_append (a rest : List Nat) (ha : a.length = 32) :
    (a ++ rest).take 32 = a := by
  rw [← ha, List.take_left]

theorem drop32_append (a rest : List Nat) (ha : a.length = 32) :
    (a ++ rest).drop 32 = rest := by
  rw [← ha, List.drop_left]

/-! ## Claim theorems -/

/-- Claim C2: for every commitment `c`, non-negative salary `s` and
blinding factor `b`, `verifyCommitment c s b` returns `true` iff
`generateCommitment s b` equals `c` byte-for-byte; in particular
`verifyCommitment (generateCommitment s b) s b` is always `true`.
(`verifyCommitment` is embedded as a pure function: it has no side
effects.)  Holds for every choice of the external Poseidon hash. -/
theorem verifyCommitment_iff_eq (poseidon : List Nat → Nat)
    (commitment : List Nat) (salary : Nat) (blindingFactor : List Nat) :
    (verifyCommitment poseidon commitment salary blindingFactor = true ↔
      commitment = generateCommitment poseidon salary blindingFactor) ∧
    verifyCommitment poseidon
      (generateCommitment poseidon salary blindingFactor)
      salary blindingFactor = true := by
  constructor
  · exact areEqual_eq_true_iff commitment
      (generateCommitment poseidon salary blindingFactor)
  · exact (areEqual_eq_true_iff _ _).mpr rfl

/-- Claim C3: decoding inverts encoding for valid points: for a G1
point with coordinates `x, y < 2^256` (affine, `z = 1`) and a G2 point
with coordinates `x0, x1, y0, y1 < 2^256` (affine, `z = (1, 0)`),
`decodeG1Point (encodeG1Point p) = p` and
`decodeG2Point (encodeG2Point q) = q`, with G1 encoded as `x || y` in
64 bytes and G2 as `x0 || x1 || y0 || y1` in 128 bytes, each coordinate
32-byte big-endian. -/
theorem pointCodec_roundtrip (x y x0 x1 y0 y1 : Nat)
    (hx : x < 2 ^ 256) (hy : y < 2 ^ 256)
    (hx0 : x0 < 2 ^ 256) (hx1 : x1 < 2 ^ 256)
    (hy0 : y0 < 2 ^ 256) (hy1 : y1 < 2 ^ 256) :
    decodeG1PointE (encodeG1Point (x, y, 1)) = .ok (x, y, 1) ∧
    decodeG2PointE (encodeG2Point ((x0, x1), (y0, y1), (1, 0)))
      = .ok ((x0, x1), (y0, y1), (1, 0)) := by
  have lx := bigIntToBytes32_length x
  have ly := bigIntToBytes32_length y
  have lx0 := bigIntToBytes32_length x0
  have lx1 := bigIntToBytes32_length x1
  have ly0 := bigIntToBytes32_length y0
  constructor
  · rw [decodeG1PointE, encodeG1Point]
    rw [take32_append _ _ lx, drop32_append _ _ lx,
      List.take_of_length_le (le_of_eq ly)]
    rw [bytes32ToBigIntE_bigIntToBytes32 x hx,
      bytes32ToBigIntE_bigIntToBytes32 y hy]
  · rw [decodeG2PointE, encodeG2Point]
    have hd32 : (bigIntToBytes32 x0 ++ (bigIntToBytes32 x1 ++
        (bigIntToBytes32 y0 ++ bigIntToBytes32 y1))).drop 32
          = bigIntToBytes32 x1 ++ (bigIntToBytes32 y0 ++ bigIntToBytes32 y1) :=
      drop32_append _ _ lx0
    have hd64 : (bigIntToBytes32 x0 ++ (bigIntToBytes32 x1 ++
        (bigIntToBytes32 y0 ++ bigIntToBytes32 y1))).drop 64
          = bigIntToBytes32 y0 ++ bigIntToBytes32 y1 := by
      rw [show (64 : Nat) = 32 + 32 from rfl, ← List.drop_drop, hd32,
        drop32_append _ _ lx1]
    have hd96 : (bigIntToBytes32 x0 ++ (bigIntToBytes32 x1 ++
        (bigIntToBytes32 y0 ++ bigIntToBytes32 y1))).drop 96
          = bigIntToBytes32 y1 := by
      rw [show (96 : Nat) = 32 + 64 from rfl, ← List.drop_drop, hd32,
        show (64 : Nat) = 32 + 32 from rfl, ← List.drop_drop,
        drop32_append _ _ lx1, drop32_append _ _ ly0]
    rw [List.append_assoc, List.append_assoc]
    rw [take32_append _ _ lx0, hd32, hd64, hd96,
      take32_append _ _ lx1, take32_append _ _ ly0,
      List.take_of_length_le (le_of_eq (bigIntToBytes32_length y1))]
    rw [bytes32ToBigIntE_bigIntToBytes32 x0 hx0,
      bytes32ToBigIntE_bigIntToBytes32 x1 hx1,
      bytes32ToBigIntE_bigIntToBytes32 y0 hy0,
      bytes32ToBigIntE_bigIntToBytes32 y1 hy1]

/-- Witness for C3 at concrete points. -/
theorem pointCodec_roundtrip_witness :
    decodeG1PointE (encodeG1Point (3, 5, 1)) = .ok (3, 5, 1) ∧
    decodeG2PointE (encodeG2Point ((2, 7), (11, 13), (1, 0)))
      = .ok ((2, 7), (11, 13), (1, 0)) :=
  pointCodec_roundtrip 3 5 2 7 11 13 (by norm_num) (by norm_num)
    (by norm_num) (by norm_num) (by norm_num) (by norm_num)

set_option maxRecDepth 8000 in
/-- Claim C4 counterexample: the scalar codec does not fail on
out-of-range input.  Encoding `2^256` succeeds and silently truncates
(it returns the same 32 bytes as encoding `0`), encoding the negative
value `-1` succeeds (two's-complement bytes `ff...ff`), and decoding a
2-byte buffer succeeds — no `EncodingError` exists anywhere in the
code. -/
theorem scalarCodec_silent_truncation :
    bigIntToBytes (2 ^ 256) = bigIntToBytes 0 ∧
    bigIntToBytes (-1) = List.replicate 32 255 ∧
    bytesToBigInt [1, 2] = 258 := by
  refine ⟨by decide, by decide, by decide⟩

/-- Claim C4 amended: the scalar codec is total and never signals an
error: `bigIntToBytes` maps every integer — negative or `≥ 2^256`
included — to the 32-byte big-endian encoding of its value modulo
`2^256` (silent truncation, two's complement for negatives), and
`bytesToBigInt` accepts buffers of any length.  On the in-range values
the codec is exact: `bytesToBigInt (bigIntToBytes v) = v` for
`0 ≤ v < 2^256`. -/
theorem scalarCodec_total (v : Int) :
    (bigIntToBytes v).length = 32 ∧
    bigIntToBytes v = bigIntToBytes (v % 2 ^ 256) ∧
    (0 ≤ v → v < 2 ^ 256 → bytesToBigInt (bigIntToBytes v) = v.toNat) := by
  refine ⟨toDigitsI_length 32 v, ?_, ?_⟩
  · have h := toDigitsI_emod 32 v
    rw [show ((256 : Int) ^ 32) = 2 ^ 256 by norm_num] at h
    exact h.symm
  · intro h0 hlt
    have hsm : v.toNat < 2 ^ 256 := by
      have h1 : (v.toNat : Int) < (2 : Int) ^ 256 := by
        rwa [Int.toNat_of_nonneg h0]
      have h2 : ((2 : Int) ^ 256) = ((2 ^ 256 : Nat) : Int) := by norm_cast
      rw [h2] at h1
      exact_mod_cast h1
    have hb : bigIntToBytes v = toDigits 32 v.toNat := by
      rw [bigIntToBytes, ← toDigitsI_ofNat, Int.toNat_of_nonneg h0]
    rw [hb, bytesToBigInt, foldl_toDigits,
      show ((256 : Nat) ^ 32) = 2 ^ 256 by norm_num, Nat.zero_mul,
      Nat.zero_add, Nat.mod_eq_of_lt hsm]

/-- Witness for the amended C4 at `v = 5`. -/
theorem scalarCodec_total_witness :
    (bigIntToBytes 5).length = 32 ∧ bytesToBigInt (bigIntToBytes 5) = 5 :=
  ⟨(scalarCodec_total 5).1,
   (scalarCodec_total 5).2.2 (by norm_num) (by norm_num)⟩

set_option maxRecDepth 8000 in
/-- Claim C1 (code bug): the nullifier attached to a payment proof is
NOT a pure function of (commitment, period, secret): the source passes
`Date.now()` — wall-clock time — as the `period` argument of
`generateNullifier` inside `generatePaymentProof`
(`src/crypto/groth16.ts` line 143; `GenerateProofParams` has no period
field at all).  Two calls with identical parameters at wall-clock times
1000 and 2000 yield different nullifiers, evaluated here at a concrete
Poseidon instance. -/
theorem paymentProof_nullifier_depends_on_clock :
    (generatePaymentProof sumPoseidon stubProver 1000
        sampleProofParams).toOption.map (fun pr => pr.nullifier)
      ≠ (generatePaymentProof sumPoseidon stubProver 2000
        sampleProofParams).toOption.map (fun pr => pr.nullifier) := by
  decide

/-- Claim C5: local proof verification is total and never throws: it is
a `Bool`-valued function for every external verifier, proof and public
inputs, and the `try/catch` semantics hold — when the `try` block fails
(a decode throw or a verifier throw), the result is the value `false`;
when it succeeds, the verifier's boolean is returned unchanged. -/
theorem verifyProofLocally_total
    (grothVerify : List Nat → SnarkjsProof → Except String Bool)
    (proof : Groth16ProofL) (publicInputs : PublicInputsL) :
    (∀ e, tryVerify grothVerify proof publicInputs = .error e →
        verifyProofLocally grothVerify proof publicInputs = false) ∧
    (∀ b, tryVerify grothVerify proof publicInputs = .ok b →
        verifyProofLocally grothVerify proof publicInputs = b) := by
  constructor
  · intro e he
    simp [verifyProofLocally, he]
  · intro b hb
    simp [verifyProofLocally, hb]

/-- Witness for C5: a throwing external verifier yields `false`, not an
exception. -/
theorem verifyProofLocally_total_witness :
    verifyProofLocally boomVerifier zeroProof zeroPublicInputs = false :=
  (verifyProofLocally_total boomVerifier zeroProof zeroPublicInputs).1
    "verification crashed" rfl

/-- Claim C6 counterexample: `generateViewKey` performs none of the
claimed validation.  With scope `timeRange`, `start = 5000 ms >
end = 3000 ms` and `durationDays = 30`, the call succeeds (no
`InvalidScopeError`), returning the `{} as ViewKey` placeholder — whose
expiry is `0`, not creation time plus 30 days. -/
theorem generateViewKey_skips_validation :
    (generateViewKey badTimeRangeParams).1 = .ok emptyViewKey ∧
    emptyViewKey.expiresAt ≠ emptyViewKey.createdAt + 30 * 86400 := by
  exact ⟨rfl, by decide⟩

/-- `mapAuditScope` succeeds exactly on `full`, `aggregate`, and
`timeRange`-with-a-range. -/
theorem mapAuditScope_ok_iff (scope : String) (tr : Option (Int × Int)) :
    (∃ s, mapAuditScope scope tr = .ok s) ↔
      (scope = "full" ∨ scope = "aggregate" ∨
        (scope = "timeRange" ∧ tr ≠ none)) := by
  unfold mapAuditScope
  split
  · simp_all
  · simp_all
  · cases tr with
    | none => simp_all
    | some p => cases p; simp_all
  · constructor
    · rintro ⟨s, hs⟩
      cases hs
    · rintro (h1 | h2 | ⟨h3, _⟩) <;> simp_all

/-- `mapAuditScope` on a scope string other than the three handled ones
throws `Unknown scope: ...`. -/
theorem mapAuditScope_unknown (scope : String) (tr : Option (Int × Int))
    (h1 : scope ≠ "full") (h2 : scope ≠ "aggregate")
    (h3 : scope ≠ "timeRange") :
    mapAuditScope scope tr = .error ("Unknown scope: " ++ scope) := by
  unfold mapAuditScope
  split <;> simp_all

/-- Claim C6 amended: `generateViewKey` validates only the scope
mapping: it succeeds iff the scope is `full`, `aggregate`, or
`timeRange` with a `timeRange` object supplied (`start > end` is
accepted; `durationDays` is never inspected, so non-positive durations
are accepted too), and every successful call returns the empty
placeholder view key, whose expiry is not derived from the duration. -/
theorem generateViewKey_actual_behavior (p : GenerateViewKeyParamsL) :
    ((∃ k, (generateViewKey p).1 = Except.ok k) ↔
      (p.scope = "full" ∨ p.scope = "aggregate" ∨
        (p.scope = "timeRange" ∧ p.timeRange ≠ none))) ∧
    (∀ k, (generateViewKey p).1 = Except.ok k → k = emptyViewKey) := by
  constructor
  · rw [← mapAuditScope_ok_iff p.scope p.timeRange]
    cases h : mapAuditScope p.scope p.timeRange with
    | ok s =>
      constructor
      · intro _; exact ⟨s, rfl⟩
      · intro _; exact ⟨emptyViewKey, by simp [generateViewKey, h]⟩
    | error e =>
      constructor
      · rintro ⟨k, hk⟩
        simp [generateViewKey, h] at hk
      · rintro ⟨s', hs'⟩
        simp at hs'
  · intro k hk
    cases h : mapAuditScope p.scope p.timeRange with
    | ok s =>
      simp [generateViewKey, h] at hk
      exact hk.symm
    | error e =>
      simp [generateViewKey, h] at hk

/-- Witness for the amended C6: a `full`-scope call succeeds and yields
the placeholder. -/
theorem generateViewKey_actual_behavior_witness :
    (∃ k, (generateViewKey fullScopeParams).1 = Except.ok k) ∧
    emptyViewKey = emptyViewKey :=
  ⟨(generateViewKey_actual_behavior fullScopeParams).1.mpr (Or.inl rfl),
   (generateViewKey_actual_behavior fullScopeParams).2 emptyViewKey rfl⟩

/-- Claim C7: when no blinding factor is stored under
`companyId:employeeAddress`, `processPayment` fails with its distinct
missing-secret error (`new Error('Blinding factor not found. Was
employee added via this SDK?')`) before anything else happens: no
employee lookup, no proof generation, no submission, and no fallback to
a zero or derived secret. -/
theorem processPayment_missing_secret (store : Store) (ext : PayExt)
    (params : ProcessPaymentParamsL)
    (h : store (mkKey params.companyId params.employeeAddress) = none) :
    processPayment store ext params
      = (.error secretNotFoundError, ⟨false, false⟩) := by
  simp [processPayment, h]

/-- Witness for C7 at an empty store. -/
theorem processPayment_missing_secret_witness :
    processPayment emptyStore trivialExt ⟨"ACME", "GEMPLOYEE", 5, 202601⟩
      = (.error secretNotFoundError, ⟨false, false⟩) :=
  processPayment_missing_secret emptyStore trivialExt
    ⟨"ACME", "GEMPLOYEE", 5, 202601⟩ rfl

/-- Claim C8: the blinding-factor store follows the declared lifecycle
with no collateral changes: after a (successfully submitted)
`deactivateEmployee`, the entry under `companyId:employeeAddress` is
gone; `updateSalary` replaces that entry with the freshly generated
blinding factor; and both operations leave every other key's entry
unchanged. -/
theorem blindingStore_lifecycle (store : Store) (poseidon : List Nat → Nat)
    (fresh : List Nat) (submitResult : Except SDKError Unit)
    (companyId employeeAddress : String) (newSalary : Nat)
    (hsub : submitResult = .ok ()) :
    (deactivateEmployee store submitResult companyId employeeAddress).2
        (mkKey companyId employeeAddress) = none ∧
    (updateSalary store poseidon fresh submitResult companyId
        employeeAddress newSalary).2
        (mkKey companyId employeeAddress) = some fresh ∧
    (∀ k, k ≠ mkKey companyId employeeAddress →
      (deactivateEmployee store submitResult companyId employeeAddress).2 k
          = store k ∧
      (updateSalary store poseidon fresh submitResult companyId
          employeeAddress newSalary).2 k = store k) := by
  subst hsub
  refine ⟨?_, ?_, fun k hk => ⟨?_, ?_⟩⟩
  · simp [deactivateEmployee, mapDelete]
  · simp [updateSalary, mapSet]
  · simp [deactivateEmployee, mapDelete, hk]
  · simp [updateSalary, mapSet, hk]

/-- Witness for C8 on a two-entry store. -/
theorem blindingStore_lifecycle_witness :
    (deactivateEmployee store2 (.ok ()) "A" "E1").2 (mkKey "A" "E1")
        = none ∧
    (updateSalary store2 sumPoseidon [9] (.ok ()) "A" "E1" 100).2
        (mkKey "A" "E1") = some [9] ∧
    (deactivateEmployee store2 (.ok ()) "A" "E1").2 (mkKey "A" "E2")
        = store2 (mkKey "A" "E2") ∧
    (updateSalary store2 sumPoseidon [9] (.ok ()) "A" "E1" 100).2
        (mkKey "A" "E2") = store2 (mkKey "A" "E2") := by
  have h := blindingStore_lifecycle store2 sumPoseidon [9] (.ok ())
    "A" "E1" 100 rfl
  exact ⟨h.1, h.2.1, (h.2.2 (mkKey "A" "E2") (by decide)).1,
    (h.2.2 (mkKey "A" "E2") (by decide)).2⟩

/-- The `processPayroll` loop equals a per-employee `filterMap`. -/
theorem processPayrollGo_eq_filterMap (store : Store)
    (ext : String → PayExt) (companyId : String) (period : Nat)
    (es : List String) :
    processPayrollGo store ext companyId period es
      = es.filterMap (payrollOutcome store ext companyId period) := by
  induction es with
  | nil => rfl
  | cons e rest ih =>
    cases h : store (mkKey companyId e) with
    | none => simp [processPayrollGo, payrollOutcome, h, ih]
    | some bf =>
      cases h2 : (processPayment store (ext e)
          ⟨companyId, e, 0, period⟩).1 with
      | ok r => simp [processPayrollGo, payrollOutcome, h, h2, ih]
      | error err => simp [processPayrollGo, payrollOutcome, h, h2, ih]

/-- Claim C9: batch payroll never throws (it is a total function into a
result list) and is per-employee: the result is the `filterMap` of an
independent per-employee outcome over the employee list, so processing
always continues past failures; an employee with no stored blinding
factor contributes no element; and an employee whose payment raises an
error contributes a `PaymentResult` with `success = false` carrying
`String(error)`. -/
theorem processPayroll_per_employee (store : Store)
    (ext : String → PayExt) (params : ProcessPayrollParamsL) :
    processPayroll store ext params
      = (params.employees.getD []).filterMap
          (payrollOutcome store ext params.companyId params.period) ∧
    (∀ e, store (mkKey params.companyId e) = none →
      payrollOutcome store ext params.companyId params.period e = none) ∧
    (∀ e err, store (mkKey params.companyId e) ≠ none →
      (processPayment store (ext e)
          ⟨params.companyId, e, 0, params.period⟩).1 = .error err →
      payrollOutcome store ext params.companyId params.period e
        = some ⟨false, none, some (errString err), params.period, e⟩) := by
  refine ⟨processPayrollGo_eq_filterMap store ext params.companyId
    params.period (params.employees.getD []), fun e he => ?_,
    fun e err hne herr => ?_⟩
  · simp [payrollOutcome, he]
  · cases h : store (mkKey params.companyId e) with
    | none => exact absurd h hne
    | some bf => simp [payrollOutcome, h, herr]

/-- Witness for C9: on a concrete store, a keyless employee is skipped
and a failing payment is recorded as a failure element. -/
theorem processPayroll_per_employee_witness :
    payrollOutcome store2 (fun _ => trivialExt) "A" 7 "E3" = none ∧
    payrollOutcome store2
        (fun _ => ⟨sumPoseidon, stubProver, 0,
          fun _ => .error (.jsError "network down"), .ok ()⟩) "A" 7 "E1"
      = some ⟨false, none, some (errString (.jsError "network down")),
          7, "E1"⟩ :=
  ⟨(processPayroll_per_employee store2 (fun _ => trivialExt)
      ⟨"A", 7, some ["E1", "E3"]⟩).2.1 "E3" rfl,
   (processPayroll_per_employee store2
      (fun _ => ⟨sumPoseidon, stubProver, 0,
        fun _ => .error (.jsError "network down"), .ok ()⟩)
      ⟨"A", 7, some ["E1", "E3"]⟩).2.2 "E1" (.jsError "network down")
      (by decide) rfl⟩

/-- Claim C10: view keys with scope `employeeList` — or any scope other
than `full`, `aggregate`, `timeRange` — cannot be issued:
`generateViewKey` throws `Unknown scope: ...` in `mapAuditScope`, before
the transaction is built or submitted and before any key is created
(the `Bool` component records that no submission happened), even though
the public `AuditScope` type (`src/types/index.ts` line 142) includes
`employeeList`. -/
theorem generateViewKey_rejects_unknown_scope (p : GenerateViewKeyParamsL)
    (h1 : p.scope ≠ "full") (h2 : p.scope ≠ "aggregate")
    (h3 : p.scope ≠ "timeRange") :
    generateViewKey p = (.error ("Unknown scope: " ++ p.scope), false) := by
  have h := mapAuditScope_unknown p.scope p.timeRange h1 h2 h3
  simp [generateViewKey, h]

/-- Witness for C10 at scope `employeeList`. -/
theorem generateViewKey_rejects_unknown_scope_witness :
    generateViewKey employeeListParams
      = (.error ("Unknown scope: " ++ "employeeList"), false) :=
  generateViewKey_rejects_unknown_scope employeeListParams
    (by decide) (by decide) (by decide)
